import Mathlib

/-!
Verification of the Chinese resident identity-card parser in `src/sfz.py`.

The Python source is shallowly embedded below: Python strings are Lean
`String`s manipulated through their character lists, the region dictionary
becomes an immutable mapping `String → Option String` (`dict.get` semantics),
`datetime.date` values become a `Date` record, and the mutable ordered-dict
result becomes the record `IdInfo`.  `datetime.date.today()` is passed in as
an explicit reference date.  All functions keep the names of their Python
counterparts where Lean allows it.
-/

set_option maxHeartbeats 1000000
set_option maxRecDepth 4000

namespace Sfz

/-- A calendar date (year, month, day), modelling the components of a Python
`datetime.date` value. -/
structure Date where
  year : Nat
  month : Nat
  day : Nat
deriving DecidableEq

/-- The region directory: an immutable mapping from region-code strings to
region names.  `dict.get` returns `None` for an absent key, modelled by
`none`. -/
def RegionDirectory : Type := String → Option String

/-- Digit value of a character, modelling Python `int(c)` for a decimal
digit `c` (all call sites in the source guard with `isdigit`). -/
def pyDigit (c : Char) : Nat := c.toNat - 48

/-- ASCII decimal-digit test, modelling Python `str.isdigit` per character. -/
def pyIsDigitChar (c : Char) : Bool := decide (48 ≤ c.toNat ∧ c.toNat ≤ 57)

/-- Python `str.isdigit`: the string is nonempty and every character is a
digit. -/
def pyIsDigitStr (s : String) : Bool := !s.data.isEmpty && s.data.all pyIsDigitChar

/-- Whitespace test for the characters removed by Python `str.strip`
(space, tab, newline, carriage return, vertical tab, form feed). -/
def pyIsSpace (c : Char) : Bool :=
  decide (c.toNat = 32 ∨ c.toNat = 9 ∨ c.toNat = 10 ∨ c.toNat = 13 ∨ c.toNat = 11 ∨ c.toNat = 12)

/-- Python `str.strip`: remove leading and trailing whitespace. -/
def pyStrip (s : String) : String :=
  ⟨List.rdropWhile pyIsSpace (s.data.dropWhile pyIsSpace)⟩

/-- Uppercase one character, modelling Python `str.upper` on the ASCII
characters that occur in identity numbers. -/
def pyUpperChar (c : Char) : Char :=
  if 97 ≤ c.toNat ∧ c.toNat ≤ 122 then Char.ofNat (c.toNat - 32) else c

/-- Python `str.upper`, applied characterwise. -/
def pyUpper (s : String) : String := ⟨s.data.map pyUpperChar⟩

/-- Python `len(s)`: the number of characters. -/
def pyLen (s : String) : Nat := s.data.length

/-- Python `s[i]` (the source only indexes in bounds; out of range yields a
dummy blank). -/
def charAt (s : String) (i : Nat) : Char := s.data.getD i ' '

/-- Python `s[a:b]`. -/
def pySlice (s : String) (a b : Nat) : String := ⟨(s.data.drop a).take (b - a)⟩

/-- Python `sep.join(parts)`. -/
def pyJoin (sep : String) : List String → String
  | [] => ""
  | [x] => x
  | x :: xs => x ++ sep ++ pyJoin sep xs

/-- Split a character list at every '/', modelling Python `str.split('/')`
(always returns at least one, possibly empty, segment). -/
def splitSlash : List Char → List (List Char)
  | [] => [[]]
  | c :: rest =>
    if c = '/' then [] :: splitSlash rest
    else
      match splitSlash rest with
      | [] => [[c]]
      | h :: t => (c :: h) :: t

/-- Python `value.split('/')[-1]`: the last '/'-separated segment (the whole
string when no '/' occurs). -/
def lastSeg (s : String) : String := ⟨(splitSlash s.data).getLastD []⟩

/-- Province-level key: first two characters padded with "0000"
(source line 32). -/
def province_key (code : String) : String := ⟨code.data.take 2 ++ ['0', '0', '0', '0']⟩

/-- City-level key: first four characters padded with "00" (source line 40). -/
def city_key (code : String) : String := ⟨code.data.take 4 ++ ['0', '0']⟩

/-- The city component appended by `get_region_detail` (source lines 40-44).
A `dict.get` miss and an empty name are both falsy in Python, so neither
appends a component. -/
def cityPart (code : String) (region_codes : RegionDirectory) : List String :=
  if city_key code ≠ province_key code then
    match region_codes (city_key code) with
    | some city => if city = "" then [] else [lastSeg city]
    | none => []
  else []

/-- The district component appended by `get_region_detail`
(source lines 46-49). -/
def districtPart (code : String) (region_codes : RegionDirectory) : List String :=
  match region_codes code with
  | some district => if district = "" then [] else [lastSeg district]
  | none => []

/-- `get_region_detail` from the source (lines 23-51).  `if province:` is a
Python truthiness test, so an absent key and an empty name both take the
`["未知省份"]` early return; the final `["未知地区"]` guard is kept as in the
source. -/
def get_region_detail (code : String) (region_codes : RegionDirectory) : List String :=
  match region_codes (province_key code) with
  | none => ["未知省份"]
  | some province =>
    if province = "" then ["未知省份"]
    else if (province :: (cityPart code region_codes ++ districtPart code region_codes)).isEmpty
    then ["未知地区"]
    else province :: (cityPart code region_codes ++ districtPart code region_codes)

/-- Checksum weight table (source line 60). -/
def coefficients : List Nat := [7, 9, 10, 5, 8, 4, 2, 1, 6, 3, 7, 9, 10, 5, 8, 4, 2]

/-- Check-character table (source line 62). -/
def check_codes : List Char := ['1', '0', 'X', '9', '8', '7', '6', '5', '4', '3', '2']

/-- `compute_check_code` from the source (lines 54-63): weight each of the
17 digits, sum, reduce mod 11, index the check-character table. -/
def compute_check_code (id_17 : String) : Char :=
  let total := ((List.range 17).map (fun i => pyDigit (charAt id_17 i) * coefficients.getD i 0)).sum
  check_codes.getD (total % 11) '1'

/-- `upgrade_15_to_18` from the source (lines 66-75): insert "19" after the
first six characters, then append the computed check character. -/
def upgrade_15_to_18 (id_15 : String) : Option String :=
  if pyLen id_15 = 15 ∧ pyIsDigitStr id_15 = true then
    let new_id : String := ⟨id_15.data.take 6 ++ '1' :: '9' :: id_15.data.drop 6⟩
    some (new_id ++ (compute_check_code new_id).toString)
  else none

/-- Zodiac-sign cutoff table (source lines 86-90). -/
def zodiac_signs : List (Nat × String) :=
  [(120, "水瓶座"), (219, "双鱼座"), (321, "白羊座"), (420, "金牛座"),
   (521, "双子座"), (622, "巨蟹座"), (723, "狮子座"), (823, "处女座"),
   (923, "天秤座"), (1024, "天蝎座"), (1123, "射手座"), (1222, "摩羯座")]

/-- The `enumerate` loop of `get_zodiac_sign` (source lines 92-95): at the
first cutoff exceeding `birth_num` return the previous entry (wrapping to the
last entry at index 0); falling off the end returns the last entry. -/
def zodiacLoop (birth_num : Nat) : List (Nat × String) → Nat → String
  | [], _ => (zodiac_signs.getLastD (0, "")).2
  | (cutoff, _) :: rest, index =>
    if birth_num < cutoff then
      if 0 < index then (zodiac_signs.getD (index - 1) (0, "")).2
      else (zodiac_signs.getLastD (0, "")).2
    else zodiacLoop birth_num rest (index + 1)

/-- `get_zodiac_sign` from the source (lines 78-95).  For a calendar date
(day below 100) the source's `int(f"{month}{day:02d}")` equals
`month * 100 + day`. -/
def get_zodiac_sign (birth_date : Date) : String :=
  zodiacLoop (birth_date.month * 100 + birth_date.day) zodiac_signs 0

/-- Chinese-zodiac table (source line 104). -/
def zodiacs : List String := ["鼠", "牛", "虎", "兔", "龙", "蛇", "马", "羊", "猴", "鸡", "狗", "猪"]

/-- `get_chinese_zodiac` from the source (lines 98-107); Python `%` on
integers agrees with `Int.emod` for a positive modulus. -/
def get_chinese_zodiac (year : Nat) : String :=
  zodiacs.getD (((year : Int) - 1900).emod 12).toNat ""

/-- `get_birth_season` from the source (lines 110-124). -/
def get_birth_season (birth_date : Date) : String :=
  if 3 ≤ birth_date.month ∧ birth_date.month ≤ 5 then "春季"
  else if 6 ≤ birth_date.month ∧ birth_date.month ≤ 8 then "夏季"
  else if 9 ≤ birth_date.month ∧ birth_date.month ≤ 11 then "秋季"
  else "冬季"

/-- Proleptic Gregorian leap-year rule used by `datetime`. -/
def isLeapYear (y : Nat) : Bool := y % 4 = 0 && (y % 100 != 0 || y % 400 = 0)

/-- Days in a month of the proleptic Gregorian calendar. -/
def daysInMonth (y m : Nat) : Nat :=
  if m = 2 then (if isLeapYear y then 29 else 28)
  else if m = 4 ∨ m = 6 ∨ m = 9 ∨ m = 11 then 30
  else 31

/-- Decimal value of a digit list. -/
def natOfDigits (l : List Char) : Nat := l.foldl (fun a c => a * 10 + pyDigit c) 0

/-- Models `datetime.datetime.strptime(s, "%Y%m%d").date()` (source line 190):
it succeeds exactly on an 8-digit string whose four-digit year is at least 1
and whose month and day form a valid proleptic Gregorian date; any failure
raises `ValueError`, modelled by `none`. -/
def parseBirthDate (s : String) : Option Date :=
  if pyLen s = 8 ∧ s.data.all pyIsDigitChar = true then
    let y := natOfDigits (s.data.take 4)
    let m := natOfDigits ((s.data.drop 4).take 2)
    let d := natOfDigits (s.data.drop 6)
    if 1 ≤ y ∧ 1 ≤ m ∧ m ≤ 12 ∧ 1 ≤ d ∧ d ≤ daysInMonth y m then some ⟨y, m, d⟩
    else none
  else none

/-- The age computation at source lines 191-193; the Python tuple comparison
`(a, b) < (c, d)` is lexicographic and the boolean is subtracted as 0 or 1. -/
def computeAge (current birth : Date) : Int :=
  (current.year : Int) - (birth.year : Int) -
    (if current.month < birth.month ∨ (current.month = birth.month ∧ current.day < birth.day)
     then 1 else 0)

/-- Two decimal digits with a leading zero (Python `%m` and `%d` in
`strftime`). -/
def pad2 (n : Nat) : List Char := [Char.ofNat (48 + n / 10 % 10), Char.ofNat (48 + n % 10)]

/-- Four decimal digits with leading zeros (Python `%Y` in `strftime` for
the four-digit years produced by the parser). -/
def pad4 (n : Nat) : List Char :=
  [Char.ofNat (48 + n / 1000 % 10), Char.ofNat (48 + n / 100 % 10),
   Char.ofNat (48 + n / 10 % 10), Char.ofNat (48 + n % 10)]

/-- Models `birth_date.strftime("%Y-%m-%d")` (source line 194). -/
def formatDate (d : Date) : String :=
  ⟨pad4 d.year ++ '-' :: (pad2 d.month ++ '-' :: pad2 d.day)⟩

/-- The result record built by `parse_id_info` (source lines 134-145).  The
ordered-dict keys become named fields in source order; the field order of the
original exists only for display. -/
structure IdInfo where
  address : String
  birthDate : String
  age : Int
  gender : String
  checkCode : String
  validity : Bool
  errorMsg : String
  zodiacSign : String
  chineseZodiac : String
  birthSeason : String
deriving DecidableEq

/-- The initial field values of the result record (source lines 134-145). -/
def defaultInfo : IdInfo :=
  { address := "未知", birthDate := "", age := 0, gender := "", checkCode := ""
    validity := false, errorMsg := "", zodiacSign := "", chineseZodiac := ""
    birthSeason := "" }

/-- Source lines 183-207: region resolution, birth-date parsing and the
derived attributes.  Note that the address is stored before the birth date is
parsed, so the `ValueError` return at line 200 carries the resolved
address. -/
def parseValidated (id_num : String) (region_codes : RegionDirectory) (current_date : Date) :
    IdInfo :=
  match parseBirthDate (pySlice id_num 6 14) with
  | none =>
    { defaultInfo with
        address := pyJoin " " (get_region_detail (pySlice id_num 0 6) region_codes)
        errorMsg := "错误：无效的出生日期" }
  | some birth_date =>
    { address := pyJoin " " (get_region_detail (pySlice id_num 0 6) region_codes)
      birthDate := formatDate birth_date
      age := computeAge current_date birth_date
      gender := if pyDigit (charAt id_num 16) % 2 = 1 then "男" else "女"
      checkCode := (charAt id_num 17).toString
      validity := true
      errorMsg := ""
      zodiacSign := get_zodiac_sign birth_date
      chineseZodiac := get_chinese_zodiac (birth_date.year)
      birthSeason := get_birth_season birth_date }

/-- Source lines 172-181: 18-character format check and checksum
verification. -/
def parse18 (id_num : String) (region_codes : RegionDirectory) (current_date : Date) : IdInfo :=
  if ¬(pyLen id_num = 18 ∧ pyIsDigitStr (pySlice id_num 0 17) = true) then
    { defaultInfo with errorMsg := "错误：无效的 18 位身份证格式" }
  else if ¬(charAt id_num 17 = compute_check_code (pySlice id_num 0 17)) then
    { defaultInfo with
        errorMsg :=
          "错误：校验码不匹配（应为" ++ (compute_check_code (pySlice id_num 0 17)).toString ++ "）" }
  else parseValidated id_num region_codes current_date

/-- Source lines 160-170: length check and 15-digit upgrade. -/
def parseLenChecked (id_num : String) (region_codes : RegionDirectory) (current_date : Date) :
    IdInfo :=
  if ¬(pyLen id_num = 15 ∨ pyLen id_num = 18) then
    { defaultInfo with errorMsg := "错误：身份证号码长度不正确" }
  else if pyLen id_num = 15 then
    match upgrade_15_to_18 id_num with
    | none => { defaultInfo with errorMsg := "错误：无效的 15 位身份证号码" }
    | some id18 => parse18 id18 region_codes current_date
  else parse18 id_num region_codes current_date

/-- Source lines 150-158: the 17-character completion stage. -/
def parseNormalized (id_num : String) (region_codes : RegionDirectory) (current_date : Date) :
    IdInfo :=
  if pyLen id_num = 17 ∧ ¬(pyIsDigitStr id_num = true) then
    { defaultInfo with errorMsg := "错误：17 位身份证必须全为数字" }
  else
    parseLenChecked
      (if pyLen id_num = 17 then id_num ++ (compute_check_code id_num).toString else id_num)
      region_codes current_date

/-- `parse_id_info` from the source (lines 127-207).  `datetime.date.today()`
is passed in as the explicit reference date `current_date`. -/
def parse_id_info (id_number : String) (region_codes : RegionDirectory) (current_date : Date) :
    IdInfo :=
  parseNormalized (pyUpper (pyStrip id_number)) region_codes current_date

/-- The region directory used by the specification's end-to-end example. -/
def dirBeijing : RegionDirectory := fun s =>
  if s = "110000" then some "北京市"
  else if s = "110100" then some "北京市/市辖区"
  else if s = "110105" then some "北京市/市辖区/朝阳区"
  else none

/-- The empty region directory. -/
def dirNone : RegionDirectory := fun _ => none

/-- A directory whose province entry is present but empty. -/
def dirEmptyProv : RegionDirectory := fun s => if s = "110000" then some "" else none

/-- A directory holding only a province entry. -/
def dirProvOnly : RegionDirectory := fun s => if s = "110000" then some "北京市" else none

/-- Specification-side checksum, following the words of the claim: multiply
digit i by the i-th coefficient (pairing the characters with the coefficient
table), sum, reduce mod 11, index the check-character table. -/
def checkSpec (s : String) : Char :=
  check_codes.getD ((List.zipWith (fun c w => pyDigit c * w) s.data coefficients).sum % 11) '1'

/-- First index of the list satisfying the test (specification-side scan). -/
def findFirstIdx (p : Nat × String → Bool) : List (Nat × String) → Option Nat
  | [] => none
  | x :: xs => if p x then some 0 else (findFirstIdx p xs).map (· + 1)

/-- Specification-side zodiac sign, following the words of the claim: scan
the cutoff table for the first entry whose cutoff exceeds month*100+day and
return the previous entry's sign, wrapping to the last entry's sign when the
first entry matches or no entry matches. -/
def zodiacSpec (m d : Nat) : String :=
  match findFirstIdx (fun p => decide (m * 100 + d < p.1)) zodiac_signs with
  | some 0 => (zodiac_signs.getLastD (0, "")).2
  | some (i + 1) => (zodiac_signs.getD i (0, "")).2
  | none => (zodiac_signs.getLastD (0, "")).2

-- basic string lemmas
theorem data_mk (l : List Char) : (String.mk l).data = l := rfl

theorem data_append (a b : String) : (a ++ b).data = a.data ++ b.data := by
  cases a; cases b; rfl

theorem string_eq_iff_data {a b : String} : a = b ↔ a.data = b.data := by
  cases a; cases b
  exact ⟨fun h => by injection h, fun h => congrArg String.mk h⟩

-- zodiac agreement over the bounded domain
theorem zodiacAgree : ∀ m, m < 13 → ∀ d, d < 32 →
    zodiacLoop (m * 100 + d) zodiac_signs 0 = zodiacSpec m d := by decide

-- char lemmas
theorem digit_not_space {c : Char} (h : pyIsDigitChar c = true) : pyIsSpace c = false := by
  simp only [pyIsDigitChar, decide_eq_true_eq] at h
  simp only [pyIsSpace, decide_eq_false_iff_not]
  omega

theorem digit_upper {c : Char} (h : pyIsDigitChar c = true) : pyUpperChar c = c := by
  simp only [pyIsDigitChar, decide_eq_true_eq] at h
  unfold pyUpperChar
  rw [if_neg]
  omega

theorem check_code_char : ∀ k, k < 11 →
    pyIsSpace (check_codes.getD k '1') = false ∧
    pyUpperChar (check_codes.getD k '1') = check_codes.getD k '1' := by decide

theorem compute_check_not_space (s : String) : pyIsSpace (compute_check_code s) = false := by
  unfold compute_check_code
  exact (check_code_char _ (Nat.mod_lt _ (by norm_num))).1

theorem compute_check_upper (s : String) :
    pyUpperChar (compute_check_code s) = compute_check_code s := by
  unfold compute_check_code
  exact (check_code_char _ (Nat.mod_lt _ (by norm_num))).2

-- nonemptiness helpers
theorem ne_empty_of_data {s : String} (h : s.data ≠ []) : s ≠ "" := by
  intro he; exact h (by rw [string_eq_iff_data] at he; exact he)

theorem charToString_ne_empty (c : Char) : c.toString ≠ "" := by
  apply ne_empty_of_data; simp [Char.toString]

theorem formatDate_ne_empty (d : Date) : formatDate d ≠ "" := by
  apply ne_empty_of_data; simp [formatDate, pad4]

theorem zodiacLoop_ne_empty : ∀ (l : List (Nat × String)) (bn i : Nat), i + l.length ≤ 12 →
    zodiacLoop bn l i ≠ "" := by
  intro l
  induction l with
  | nil => intro bn i h; simp only [zodiacLoop]; decide
  | cons a rest ih =>
    intro bn i h
    obtain ⟨cutoff, s⟩ := a
    simp only [zodiacLoop]
    split
    · split
      · have hk : i - 1 < 12 := by simp only [List.length_cons] at h; omega
        revert hk
        generalize i - 1 = k
        revert k
        decide
      · decide
    · exact ih bn (i + 1) (by simp only [List.length_cons] at h; omega)

theorem zodiac_ne_empty (b : Date) : get_zodiac_sign b ≠ "" :=
  zodiacLoop_ne_empty zodiac_signs _ 0 (by decide)

theorem chineseZodiac_ne_empty (y : Nat) : get_chinese_zodiac y ≠ "" := by
  unfold get_chinese_zodiac
  have h1 : (0 : Int) ≤ ((y : Int) - 1900).emod 12 := Int.emod_nonneg _ (by norm_num)
  have h2 : ((y : Int) - 1900).emod 12 < 12 := Int.emod_lt_of_pos _ (by norm_num)
  have h3 : (((y : Int) - 1900).emod 12).toNat < 12 := by omega
  revert h3
  generalize (((y : Int) - 1900).emod 12).toNat = k
  revert k
  decide

theorem season_ne_empty (b : Date) : get_birth_season b ≠ "" := by
  unfold get_birth_season
  repeat' split <;> simp_all

-- region resolver shape
theorem region_shape (code : String) (rc : RegionDirectory) :
    ((rc (province_key code) = none ∨ rc (province_key code) = some "") ∧
      get_region_detail code rc = ["未知省份"]) ∨
    ∃ p, rc (province_key code) = some p ∧ p ≠ "" ∧
      get_region_detail code rc = p :: (cityPart code rc ++ districtPart code rc) := by
  unfold get_region_detail
  cases h : rc (province_key code) with
  | none => exact Or.inl ⟨Or.inl rfl, rfl⟩
  | some p =>
    by_cases hp : p = ""
    · subst hp
      exact Or.inl ⟨Or.inr rfl, by simp⟩
    · right
      refine ⟨p, rfl, hp, ?_⟩
      simp [hp]

theorem pyJoin_head_ne_empty (x : String) (rest : List String) (hx : x ≠ "") :
    pyJoin " " (x :: rest) ≠ "" := by
  cases rest with
  | nil => simpa [pyJoin]
  | cons y ys =>
    apply ne_empty_of_data
    simp only [pyJoin, data_append]
    intro h
    have hlen := congrArg List.length h
    simp only [List.length_append, List.length_cons, List.length_nil] at hlen
    omega

theorem address_ne_empty (code : String) (rc : RegionDirectory) :
    pyJoin " " (get_region_detail code rc) ≠ "" := by
  rcases region_shape code rc with ⟨_, h⟩ | ⟨p, _, hp, h⟩
  · rw [h]
    apply pyJoin_head_ne_empty
    intro hc
    simp at hc
  · rw [h]
    exact pyJoin_head_ne_empty _ _ hp

-- string building-block lemmas
theorem char_toString_data (c : Char) : c.toString.data = [c] := rfl

theorem pyLen_append_char (t : String) (c : Char) : pyLen (t ++ c.toString) = pyLen t + 1 := by
  unfold pyLen
  rw [data_append, char_toString_data, List.length_append, List.length_cons, List.length_nil]

theorem pySlice17_append {t : String} (c : Char) (h : pyLen t = 17) :
    pySlice (t ++ c.toString) 0 17 = t := by
  unfold pySlice
  rw [string_eq_iff_data, data_mk, data_append, char_toString_data]
  simp only [List.drop_zero]
  exact List.take_left' h

theorem charAt17_append {t : String} (c : Char) (h : pyLen t = 17) :
    charAt (t ++ c.toString) 17 = c := by
  unfold charAt
  unfold pyLen at h
  rw [data_append, char_toString_data, List.getD_eq_getElem?_getD,
    List.getElem?_append_right (by omega)]
  simp [h]

theorem validated_errMsg (id : String) (rc : RegionDirectory) (ref : Date) :
    (parseValidated id rc ref).errorMsg = "" ∨
      (parseValidated id rc ref).errorMsg = "错误：无效的出生日期" := by
  unfold parseValidated
  cases parseBirthDate (pySlice id 6 14) <;> simp

-- parser stage lemmas
theorem parse18_checked {id : String} (h1 : pyLen id = 18)
    (h2 : pyIsDigitStr (pySlice id 0 17) = true)
    (h3 : charAt id 17 = compute_check_code (pySlice id 0 17))
    (rc : RegionDirectory) (ref : Date) :
    parse18 id rc ref = parseValidated id rc ref := by
  unfold parse18
  rw [if_neg (not_not_intro ⟨h1, h2⟩), if_neg (not_not_intro h3)]

theorem parse18_mismatch {id : String} (h1 : pyLen id = 18)
    (h2 : pyIsDigitStr (pySlice id 0 17) = true)
    (h3 : charAt id 17 ≠ compute_check_code (pySlice id 0 17))
    (rc : RegionDirectory) (ref : Date) :
    parse18 id rc ref =
      { defaultInfo with
          errorMsg :=
            "错误：校验码不匹配（应为" ++ (compute_check_code (pySlice id 0 17)).toString ++ "）" } := by
  unfold parse18
  rw [if_neg (not_not_intro ⟨h1, h2⟩), if_pos h3]

theorem parseLen_18 {id : String} (h1 : pyLen id = 18) (rc : RegionDirectory) (ref : Date) :
    parseLenChecked id rc ref = parse18 id rc ref := by
  unfold parseLenChecked
  rw [if_neg (not_not_intro (Or.inr h1)), if_neg (by simp [h1])]

theorem parseNorm_18 {id : String} (h1 : pyLen id = 18) (rc : RegionDirectory) (ref : Date) :
    parseNormalized id rc ref = parseLenChecked id rc ref := by
  unfold parseNormalized
  rw [if_neg (by simp [h1]), if_neg (by simp [h1])]

theorem parseNorm_17 {id : String} (h1 : pyLen id = 17) (h2 : pyIsDigitStr id = true)
    (rc : RegionDirectory) (ref : Date) :
    parseNormalized id rc ref =
      parseValidated (id ++ (compute_check_code id).toString) rc ref := by
  unfold parseNormalized
  rw [if_neg (by simp [h2]), if_pos h1]
  rw [parseLen_18 (by rw [pyLen_append_char, h1]) rc ref]
  refine parse18_checked (by rw [pyLen_append_char, h1]) ?_ ?_ rc ref
  · rw [pySlice17_append _ h1]; exact h2
  · rw [pySlice17_append _ h1, charAt17_append _ h1]

-- 15-digit upgrade path
theorem upgrade_eq {id : String} (h1 : pyLen id = 15) (h2 : pyIsDigitStr id = true) :
    upgrade_15_to_18 id =
      some ((⟨id.data.take 6 ++ '1' :: '9' :: id.data.drop 6⟩ : String) ++
        (compute_check_code ⟨id.data.take 6 ++ '1' :: '9' :: id.data.drop 6⟩).toString) := by
  unfold upgrade_15_to_18
  rw [if_pos ⟨h1, h2⟩]

theorem new_id_len {id : String} (h1 : pyLen id = 15) :
    pyLen (⟨id.data.take 6 ++ '1' :: '9' :: id.data.drop 6⟩ : String) = 17 := by
  unfold pyLen at h1 ⊢
  rw [data_mk, List.length_append, List.length_cons, List.length_cons, List.length_take,
    List.length_drop, h1]
  omega

theorem new_id_digits {id : String} (h2 : pyIsDigitStr id = true) :
    pyIsDigitStr (⟨id.data.take 6 ++ '1' :: '9' :: id.data.drop 6⟩ : String) = true := by
  unfold pyIsDigitStr at h2 ⊢
  rw [Bool.and_eq_true] at h2 ⊢
  constructor
  · rw [data_mk]
    cases h : id.data.take 6 <;> simp
  · rw [data_mk, List.all_append, List.all_cons, List.all_cons, Bool.and_eq_true,
      Bool.and_eq_true, Bool.and_eq_true]
    have hall := h2.2
    rw [List.all_eq_true] at hall ⊢
    refine ⟨fun x hx => hall x (List.take_subset 6 _ hx), by decide, by decide, ?_⟩
    rw [List.all_eq_true]
    exact fun x hx => hall x (List.drop_subset 6 _ hx)

theorem parseNorm_15 {id : String} (h1 : pyLen id = 15) (h2 : pyIsDigitStr id = true)
    (rc : RegionDirectory) (ref : Date) :
    parseNormalized id rc ref =
      parseValidated ((⟨id.data.take 6 ++ '1' :: '9' :: id.data.drop 6⟩ : String) ++
        (compute_check_code ⟨id.data.take 6 ++ '1' :: '9' :: id.data.drop 6⟩).toString) rc ref := by
  unfold parseNormalized
  rw [if_neg (by simp [h1]), if_neg (by simp [h1])]
  unfold parseLenChecked
  rw [if_neg (not_not_intro (Or.inl h1)), if_pos h1, upgrade_eq h1 h2]
  have hlen := new_id_len h1
  refine parse18_checked (by rw [pyLen_append_char, hlen]) ?_ ?_ rc ref
  · rw [pySlice17_append _ hlen]; exact new_id_digits h2
  · rw [pySlice17_append _ hlen, charAt17_append _ hlen]

-- normalization no-op lemmas
theorem getD_zero_mem {l : List Char} (h : l ≠ []) : l.getD 0 ' ' ∈ l := by
  cases l with
  | nil => exact absurd rfl h
  | cons a t => simp

theorem pyStrip_append_char {t : String} {c : Char}
    (hne : t.data ≠ []) (hh : pyIsSpace (t.data.getD 0 ' ') = false)
    (hc : pyIsSpace c = false) :
    pyStrip (t ++ c.toString) = t ++ c.toString := by
  unfold pyStrip
  rw [string_eq_iff_data, data_mk, data_append, char_toString_data]
  cases ht : t.data with
  | nil => exact absurd ht hne
  | cons d rest =>
    rw [ht] at hh
    simp only [List.getD_cons_zero] at hh
    rw [List.cons_append, List.dropWhile_cons, hh]
    simp only [Bool.false_eq_true, if_false]
    rw [show d :: (rest ++ [c]) = (d :: rest) ++ [c] from rfl]
    rw [List.rdropWhile_concat_neg _ _ c (by simp [hc])]

theorem map_upper_digits : ∀ l : List Char, (∀ x ∈ l, pyIsDigitChar x = true) →
    l.map pyUpperChar = l := by
  intro l h
  induction l with
  | nil => rfl
  | cons d rest ih =>
    rw [List.map_cons, digit_upper (h d (by simp)), ih (fun x hx => h x (by simp [hx]))]

theorem pyUpper_digits {t : String} (h : t.data.all pyIsDigitChar = true) : pyUpper t = t := by
  rw [string_eq_iff_data]
  unfold pyUpper
  rw [data_mk]
  rw [List.all_eq_true] at h
  exact map_upper_digits t.data h

theorem pyUpper_append_char (t : String) (c : Char) :
    pyUpper (t ++ c.toString) = pyUpper t ++ (pyUpperChar c).toString := by
  rw [string_eq_iff_data]
  unfold pyUpper
  rw [data_append, data_append, char_toString_data, char_toString_data, data_mk, data_mk,
    List.map_append]
  rfl

-- error-message discrimination by length
theorem mismatch_msg_ne {m : String} (e : String) (hm : m.data.length < 13) :
    m ≠ "错误：校验码不匹配（应为" ++ e ++ "）" := by
  intro h
  have hl := congrArg (fun s => s.data.length) h
  simp only [data_append, List.length_append, List.length_cons, List.length_nil] at hl
  omega

-- case analysis of the full parser
theorem parse_cases (id : String) (rc : RegionDirectory) (ref : Date) :
    (∃ e, parseNormalized id rc ref = { defaultInfo with errorMsg := e } ∧ e ≠ "") ∨
      ∃ id2, parseNormalized id rc ref = parseValidated id2 rc ref := by
  unfold parseNormalized parseLenChecked parse18
  repeat' split
  all_goals
    first
      | exact Or.inl ⟨_, rfl, by decide⟩
      | exact Or.inl ⟨_, rfl, Ne.symm (mismatch_msg_ne _ (by decide))⟩
      | exact Or.inr ⟨_, rfl⟩

-- parseValidated branch equations
theorem parseValidated_none {id : String} {rc : RegionDirectory} {ref : Date}
    (h : parseBirthDate (pySlice id 6 14) = none) :
    parseValidated id rc ref =
      { defaultInfo with
          address := pyJoin " " (get_region_detail (pySlice id 0 6) rc)
          errorMsg := "错误：无效的出生日期" } := by
  unfold parseValidated
  rw [h]

theorem parseValidated_some {id : String} {rc : RegionDirectory} {ref : Date} {b : Date}
    (h : parseBirthDate (pySlice id 6 14) = some b) :
    parseValidated id rc ref =
      { address := pyJoin " " (get_region_detail (pySlice id 0 6) rc)
        birthDate := formatDate b
        age := computeAge ref b
        gender := if pyDigit (charAt id 16) % 2 = 1 then "男" else "女"
        checkCode := (charAt id 17).toString
        validity := true
        errorMsg := ""
        zodiacSign := get_zodiac_sign b
        chineseZodiac := get_chinese_zodiac b.year
        birthSeason := get_birth_season b } := by
  unfold parseValidated
  rw [h]

-- result-field characterization
theorem parse_invalid_fields (input : String) (rc : RegionDirectory) (ref : Date)
    (h : (parse_id_info input rc ref).validity = false) :
    (parse_id_info input rc ref).birthDate = "" ∧ (parse_id_info input rc ref).age = 0 ∧
      (parse_id_info input rc ref).gender = "" ∧ (parse_id_info input rc ref).checkCode = "" ∧
      (parse_id_info input rc ref).zodiacSign = "" ∧
      (parse_id_info input rc ref).chineseZodiac = "" ∧
      (parse_id_info input rc ref).birthSeason = "" ∧
      (parse_id_info input rc ref).errorMsg ≠ "" := by
  unfold parse_id_info at h ⊢
  rcases parse_cases (pyUpper (pyStrip input)) rc ref with ⟨e, he, hne⟩ | ⟨id2, hv⟩
  · rw [he]
    exact ⟨rfl, rfl, rfl, rfl, rfl, rfl, rfl, hne⟩
  · rw [hv] at h ⊢
    cases hbd : parseBirthDate (pySlice id2 6 14) with
    | none =>
      rw [parseValidated_none hbd]
      exact ⟨rfl, rfl, rfl, rfl, rfl, rfl, rfl,
        show ("错误：无效的出生日期" : String) ≠ "" by decide⟩
    | some b => rw [parseValidated_some hbd] at h; simp at h

theorem parse_valid_fields (input : String) (rc : RegionDirectory) (ref : Date)
    (h : (parse_id_info input rc ref).validity = true) :
    (parse_id_info input rc ref).errorMsg = "" ∧ (parse_id_info input rc ref).address ≠ "" ∧
      (parse_id_info input rc ref).birthDate ≠ "" ∧ (parse_id_info input rc ref).gender ≠ "" ∧
      (parse_id_info input rc ref).checkCode ≠ "" ∧
      (parse_id_info input rc ref).zodiacSign ≠ "" ∧
      (parse_id_info input rc ref).chineseZodiac ≠ "" ∧
      (parse_id_info input rc ref).birthSeason ≠ "" := by
  unfold parse_id_info at h ⊢
  rcases parse_cases (pyUpper (pyStrip input)) rc ref with ⟨e, he, hne⟩ | ⟨id2, hv⟩
  · rw [he] at h; simp [defaultInfo] at h
  · rw [hv] at h ⊢
    cases hbd : parseBirthDate (pySlice id2 6 14) with
    | none => rw [parseValidated_none hbd] at h; simp [defaultInfo] at h
    | some b =>
      rw [parseValidated_some hbd]
      refine ⟨rfl, address_ne_empty _ _, formatDate_ne_empty b, ?_, charToString_ne_empty _,
        zodiac_ne_empty b, chineseZodiac_ne_empty _, season_ne_empty b⟩
      by_cases hg : pyDigit (charAt id2 16) % 2 = 1
      · rw [if_pos hg]
        exact show ("男" : String) ≠ "" by decide
      · rw [if_neg hg]
        exact show ("女" : String) ≠ "" by decide

theorem parse_valid_shape (input : String) (rc : RegionDirectory) (ref : Date)
    (h : (parse_id_info input rc ref).validity = true) :
    ∃ b : Date, (parse_id_info input rc ref).birthDate = formatDate b ∧
      (parse_id_info input rc ref).age = computeAge ref b := by
  unfold parse_id_info at h ⊢
  rcases parse_cases (pyUpper (pyStrip input)) rc ref with ⟨e, he, hne⟩ | ⟨id2, hv⟩
  · rw [he] at h; simp [defaultInfo] at h
  · rw [hv] at h ⊢
    cases hbd : parseBirthDate (pySlice id2 6 14) with
    | none => rw [parseValidated_none hbd] at h; simp [defaultInfo] at h
    | some b =>
      rw [parseValidated_some hbd]
      exact ⟨b, rfl, rfl⟩

-- age nonnegativity condition
theorem computeAge_nonneg (r b : Date)
    (hle : b.year < r.year ∨ (b.year = r.year ∧
      (b.month < r.month ∨ (b.month = r.month ∧ b.day ≤ r.day)))) :
    0 ≤ computeAge r b := by
  unfold computeAge
  split <;> omega

-- checksum: range-index sum versus zip sum
theorem sum_range_zip : ∀ (cs : List Nat) (l : List Char), l.length = cs.length →
    ((List.range cs.length).map (fun i => pyDigit (l.getD i ' ') * cs.getD i 0)).sum =
      (List.zipWith (fun c w => pyDigit c * w) l cs).sum := by
  intro cs
  induction cs with
  | nil => intro l h; simp
  | cons w ws ih =>
    intro l h
    cases l with
    | nil => simp at h
    | cons c t =>
      rw [List.length_cons, List.range_succ_eq_map, List.map_cons, List.map_map, List.sum_cons,
        List.zipWith_cons_cons, List.sum_cons]
      congr 1
      have hfun : ((fun i => pyDigit ((c :: t).getD i ' ') * (w :: ws).getD i 0) ∘ Nat.succ) =
          (fun i => pyDigit (t.getD i ' ') * ws.getD i 0) := by
        funext i
        simp [Function.comp, List.getD_cons_succ]
      rw [hfun]
      exact ih t (by simpa using h)

theorem daysInMonth_le (y m : Nat) : daysInMonth y m ≤ 31 := by
  unfold daysInMonth
  repeat' split
  all_goals omega

theorem pyIsDigitStr_of_all {s : String} (h1 : pyLen s = 17)
    (h2 : s.data.all pyIsDigitChar = true) : pyIsDigitStr s = true := by
  unfold pyIsDigitStr
  rw [Bool.and_eq_true]
  refine ⟨?_, h2⟩
  unfold pyLen at h1
  cases hs : s.data with
  | nil => rw [hs] at h1; simp at h1
  | cons a t => simp

theorem normalize_append {s : String} {c : Char} (h1 : pyLen s = 17)
    (h2 : s.data.all pyIsDigitChar = true) (hc : pyIsSpace c = false) :
    pyUpper (pyStrip (s ++ c.toString)) = s ++ (pyUpperChar c).toString := by
  have hne : s.data ≠ [] := by
    unfold pyLen at h1
    intro hh
    rw [hh] at h1
    simp at h1
  have hh0 : pyIsSpace (s.data.getD 0 ' ') = false :=
    digit_not_space (by rw [List.all_eq_true] at h2; exact h2 _ (getD_zero_mem hne))
  rw [pyStrip_append_char hne hh0 hc, pyUpper_append_char, pyUpper_digits h2]


/-- C1 (counterexample): the specification's end-to-end input
"110105199003078515" does not parse as valid: the check character computed
from its first 17 digits is '0', not the supplied '5', so the parser stops
with a checksum-mismatch error. -/
theorem C1_counterexample :
    (parse_id_info "110105199003078515" dirBeijing ⟨2024, 1, 1⟩).validity = false ∧
      (parse_id_info "110105199003078515" dirBeijing ⟨2024, 1, 1⟩).errorMsg =
        "错误：校验码不匹配（应为0）" := by
  constructor <;> decide

/-- C1 (amended): with the check digit corrected to '0', the input
"110105199003078510" parsed against the example region directory with
reference date 2024-01-01 yields validity true, address
"北京市 市辖区 朝阳区", gender 男 from the odd digit '1' at index 16, and
age 33 from birth date 1990-03-07. -/
theorem C1_amended_ok :
    parse_id_info "110105199003078510" dirBeijing ⟨2024, 1, 1⟩ =
      { address := "北京市 市辖区 朝阳区", birthDate := "1990-03-07", age := 33, gender := "男"
        checkCode := "0", validity := true, errorMsg := "", zodiacSign := "双鱼座"
        chineseZodiac := "马", birthSeason := "春季" } := by decide

/-- C2 (counterexample): an input with a correct checksum but an invalid
birth date (month 13) is rejected with validity false, yet its address field
is already populated ("未知省份" here, not the default "未知"), because the
source stores the address before parsing the birth date. -/
theorem C2_counterexample :
    (parse_id_info "110105199013078514" dirNone ⟨2024, 1, 1⟩).validity = false ∧
      (parse_id_info "110105199013078514" dirNone ⟨2024, 1, 1⟩).address ≠ "未知" := by
  constructor <;> decide

/-- C2 (amended): when validity is true the error message is empty and the
address, birth date, gender, check character, zodiac sign, Chinese zodiac and
birth season are all populated; when validity is false every field other than
the error message and the address holds its default value and the error
message is nonempty (the address may have been resolved already, since the
invalid-birth-date failure happens after region resolution); an input of
invalid length such as 10 digits yields validity false, a length error
message, and all other fields at default. -/
theorem C2_amended_ok :
    (∀ (input : String) (dir : RegionDirectory) (ref : Date),
      (parse_id_info input dir ref).validity = true →
        (parse_id_info input dir ref).errorMsg = "" ∧
        (parse_id_info input dir ref).address ≠ "" ∧
        (parse_id_info input dir ref).birthDate ≠ "" ∧
        (parse_id_info input dir ref).gender ≠ "" ∧
        (parse_id_info input dir ref).checkCode ≠ "" ∧
        (parse_id_info input dir ref).zodiacSign ≠ "" ∧
        (parse_id_info input dir ref).chineseZodiac ≠ "" ∧
        (parse_id_info input dir ref).birthSeason ≠ "") ∧
    (∀ (input : String) (dir : RegionDirectory) (ref : Date),
      (parse_id_info input dir ref).validity = false →
        (parse_id_info input dir ref).birthDate = "" ∧
        (parse_id_info input dir ref).age = 0 ∧
        (parse_id_info input dir ref).gender = "" ∧
        (parse_id_info input dir ref).checkCode = "" ∧
        (parse_id_info input dir ref).zodiacSign = "" ∧
        (parse_id_info input dir ref).chineseZodiac = "" ∧
        (parse_id_info input dir ref).birthSeason = "" ∧
        (parse_id_info input dir ref).errorMsg ≠ "") ∧
    parse_id_info "0123456789" dirNone ⟨2024, 1, 1⟩ =
      { defaultInfo with errorMsg := "错误：身份证号码长度不正确" } :=
  ⟨parse_valid_fields, parse_invalid_fields, by decide⟩

/-- C2 (witness): the amended invariant instantiated at a concrete valid
parse. -/
theorem C2_witness :
    (parse_id_info "110105199003078510" dirBeijing ⟨2024, 1, 1⟩).errorMsg = "" ∧
      (parse_id_info "110105199003078510" dirBeijing ⟨2024, 1, 1⟩).address ≠ "" ∧
      (parse_id_info "110105199003078510" dirBeijing ⟨2024, 1, 1⟩).birthDate ≠ "" ∧
      (parse_id_info "110105199003078510" dirBeijing ⟨2024, 1, 1⟩).gender ≠ "" ∧
      (parse_id_info "110105199003078510" dirBeijing ⟨2024, 1, 1⟩).checkCode ≠ "" ∧
      (parse_id_info "110105199003078510" dirBeijing ⟨2024, 1, 1⟩).zodiacSign ≠ "" ∧
      (parse_id_info "110105199003078510" dirBeijing ⟨2024, 1, 1⟩).chineseZodiac ≠ "" ∧
      (parse_id_info "110105199003078510" dirBeijing ⟨2024, 1, 1⟩).birthSeason ≠ "" :=
  C2_amended_ok.1 "110105199003078510" dirBeijing ⟨2024, 1, 1⟩ (by decide)

/-- C3: for every 17-character all-digit string the check-character
computation equals the deterministic weighted mod-11 table lookup described
by the specification, and the check character of "11010519491231002"
is 'X'. -/
theorem C3_ok :
    (∀ s : String, pyLen s = 17 → s.data.all pyIsDigitChar = true →
      compute_check_code s = checkSpec s) ∧
    compute_check_code "11010519491231002" = 'X' := by
  constructor
  · intro s h _hd
    unfold compute_check_code checkSpec
    have hz := sum_range_zip coefficients s.data (by unfold pyLen at h; rw [h]; rfl)
    have h17 : List.range coefficients.length = List.range 17 := rfl
    rw [h17] at hz
    simp only [charAt]
    rw [hz]
  · decide

/-- C3 (witness): the checksum agreement instantiated at the concrete
17-digit input from the specification. -/
theorem C3_witness :
    compute_check_code "11010519491231002" = checkSpec "11010519491231002" :=
  C3_ok.1 "11010519491231002" (by decide) (by decide)

/-- C4: for every valid calendar birth date the zodiac computation agrees
with the specification's scan (first cutoff exceeding month*100+day, previous
entry's sign, wrapping to the last entry when the first entry matches or none
does), and the boundary dates 01-19, 01-20 and 12-22 give 摩羯座, 水瓶座 and
摩羯座 respectively. -/
theorem C4_ok :
    (∀ (y m d : Nat), 1 ≤ m → m ≤ 12 → 1 ≤ d → d ≤ daysInMonth y m →
      get_zodiac_sign ⟨y, m, d⟩ = zodiacSpec m d) ∧
    get_zodiac_sign ⟨2000, 1, 19⟩ = "摩羯座" ∧
    get_zodiac_sign ⟨2000, 1, 20⟩ = "水瓶座" ∧
    get_zodiac_sign ⟨2000, 12, 22⟩ = "摩羯座" := by
  refine ⟨?_, by decide, by decide, by decide⟩
  intro y m d _h1 h2 _h3 h4
  have h5 : d ≤ 31 := le_trans h4 (daysInMonth_le y m)
  exact zodiacAgree m (by omega) d (by omega)

/-- C4 (witness): the zodiac agreement instantiated at the concrete date
2000-03-07. -/
theorem C4_witness : get_zodiac_sign ⟨2000, 3, 7⟩ = zodiacSpec 3 7 :=
  C4_ok.1 2000 3 7 (by norm_num) (by norm_num) (by norm_num) (by decide)

/-- C5: for every reference date and birth date the computed age equals
reference year minus birth year, minus 1 exactly when the reference
(month, day) pair is lexicographically below the birth (month, day) pair;
with reference 2024-06-15 birth 2000-06-16 gives 23 and birth 2000-06-15
gives 24. -/
theorem C5_ok :
    (∀ current birth : Date,
      (computeAge current birth = (current.year : Int) - (birth.year : Int) - 1 ↔
        (current.month < birth.month ∨
          (current.month = birth.month ∧ current.day < birth.day))) ∧
      (computeAge current birth = (current.year : Int) - (birth.year : Int) ↔
        ¬(current.month < birth.month ∨
          (current.month = birth.month ∧ current.day < birth.day)))) ∧
    computeAge ⟨2024, 6, 15⟩ ⟨2000, 6, 16⟩ = 23 ∧
    computeAge ⟨2024, 6, 15⟩ ⟨2000, 6, 15⟩ = 24 := by
  refine ⟨?_, by decide, by decide⟩
  intro current birth
  unfold computeAge
  by_cases h : current.month < birth.month ∨
      (current.month = birth.month ∧ current.day < birth.day)
  · rw [if_pos h]
    exact ⟨⟨fun _ => h, fun _ => rfl⟩, ⟨fun he => absurd he (by omega), fun hn => absurd h hn⟩⟩
  · rw [if_neg h]
    exact ⟨⟨fun he => absurd he (by omega), fun hh => absurd hh h⟩,
      ⟨fun _ => h, fun _ => by omega⟩⟩

/-- C6 (counterexample): with a directory in which the province key "110000"
is present but maps to the empty string, and no city or district entries, the
resolver for code "110105" does not return the province name alone: it falls
back to ["未知省份"], whose joined address is nonempty while the province
name is empty. -/
theorem C6_counterexample :
    get_region_detail "110105" dirEmptyProv = ["未知省份"] ∧
      pyJoin " " (get_region_detail "110105" dirEmptyProv) ≠ "" := by
  constructor <;> decide

/-- C6 (amended): for every 6-digit code and directory, an absent province
key yields exactly ["未知省份"]; a province key present with a NON-EMPTY name
and no city or district entries yields the province name alone; and a city
component is appended exactly when the city key differs from the province key
and is present with a non-empty value, contributing the last '/'-delimited
segment of that value (an empty province or city value behaves like an absent
key, because Python truthiness treats "" as false). -/
theorem C6_amended_ok :
    ∀ (code : String) (dir : RegionDirectory), pyLen code = 6 →
      code.data.all pyIsDigitChar = true →
      (dir (province_key code) = none → get_region_detail code dir = ["未知省份"]) ∧
      (∀ p, dir (province_key code) = some p → p ≠ "" →
        ((dir (city_key code) = none → dir code = none →
            get_region_detail code dir = [p]) ∧
         ((city_key code = province_key code ∨ dir (city_key code) = none ∨
             dir (city_key code) = some "") →
           get_region_detail code dir = p :: districtPart code dir) ∧
         (∀ c, city_key code ≠ province_key code → dir (city_key code) = some c → c ≠ "" →
           get_region_detail code dir = p :: lastSeg c :: districtPart code dir))) := by
  intro code dir _h1 _h2
  constructor
  · intro hp
    unfold get_region_detail
    rw [hp]
  · intro p hp hpne
    have hreg : get_region_detail code dir =
        p :: (cityPart code dir ++ districtPart code dir) := by
      rcases region_shape code dir with ⟨hcase, _⟩ | ⟨q, hq, _, h⟩
      · rcases hcase with h0 | h0
        · rw [hp] at h0
          exact absurd h0 (by simp)
        · rw [hp] at h0
          injection h0 with h0
          exact absurd h0 hpne
      · rw [hp] at hq
        injection hq with hq
        rw [← hq] at h
        exact h
    refine ⟨?_, ?_, ?_⟩
    · intro hc hd
      have hcity : cityPart code dir = [] := by
        unfold cityPart
        split
        · rw [hc]
        · rfl
      have hdist : districtPart code dir = [] := by
        unfold districtPart
        rw [hd]
      rw [hreg, hcity, hdist]
      rfl
    · intro hcond
      have hcity : cityPart code dir = [] := by
        unfold cityPart
        rcases hcond with h | h | h
        · rw [if_neg (not_not_intro h)]
        · split
          · rw [h]
          · rfl
        · split
          · rw [h]
            simp
          · rfl
      rw [hreg, hcity]
      rfl
    · intro c hne hc hcne
      have hcity : cityPart code dir = [lastSeg c] := by
        unfold cityPart
        rw [if_pos hne]
        simp only [hc]
        rw [if_neg hcne]
      rw [hreg, hcity]
      rfl

/-- C6 (witness): the amended resolver contract instantiated for a directory
holding only the province entry. -/
theorem C6_witness : get_region_detail "110105" dirProvOnly = ["北京市"] :=
  ((C6_amended_ok "110105" dirProvOnly (by decide) (by decide)).2 "北京市" (by decide)
    (by decide)).1 (by decide) (by decide)

/-- C7 (counterexample): corrupting the final check character 'X' of the
valid number "11010519491231002X" to the DIFFERENT character 'x' does not
make the parser fail: normalization uppercases the input, so the parse still
succeeds. -/
theorem C7_counterexample :
    (parse_id_info "11010519491231002x" dirNone ⟨2024, 1, 1⟩).validity = true ∧ 'x' ≠ 'X' := by
  constructor <;> decide

/-- C7 (amended): every 18-character number formed from 17 digits plus the
check character computed from them passes the checksum stage (the parse can
only still fail on the birth date); and replacing the 18th character with any
non-whitespace character whose UPPERCASED form differs from the computed
check character makes the parser fail with the checksum-mismatch error whose
message contains the expected character (a lowercase 'x' for an 'X' check
character, or a trailing whitespace character, survives normalization and is
not a counterexample to validity). -/
theorem C7_amended_ok :
    (∀ (s : String) (dir : RegionDirectory) (ref : Date), pyLen s = 17 →
      s.data.all pyIsDigitChar = true →
      ((parse_id_info (s ++ (compute_check_code s).toString) dir ref).errorMsg = "" ∨
        (parse_id_info (s ++ (compute_check_code s).toString) dir ref).errorMsg =
          "错误：无效的出生日期")) ∧
    (∀ (s : String) (c : Char) (dir : RegionDirectory) (ref : Date), pyLen s = 17 →
      s.data.all pyIsDigitChar = true → pyIsSpace c = false →
      pyUpperChar c ≠ compute_check_code s →
      ((parse_id_info (s ++ c.toString) dir ref).validity = false ∧
        (parse_id_info (s ++ c.toString) dir ref).errorMsg =
          "错误：校验码不匹配（应为" ++ (compute_check_code s).toString ++ "）" ∧
        compute_check_code s ∈ (parse_id_info (s ++ c.toString) dir ref).errorMsg.data)) := by
  constructor
  · intro s dir ref h1 h2
    unfold parse_id_info
    rw [normalize_append h1 h2 (compute_check_not_space s), compute_check_upper]
    have hlen : pyLen (s ++ (compute_check_code s).toString) = 18 := by
      rw [pyLen_append_char, h1]
    rw [parseNorm_18 hlen, parseLen_18 hlen,
      parse18_checked hlen (by rw [pySlice17_append _ h1]; exact pyIsDigitStr_of_all h1 h2)
        (by rw [pySlice17_append _ h1, charAt17_append _ h1])]
    exact validated_errMsg _ dir ref
  · intro s c dir ref h1 h2 hcs hcu
    unfold parse_id_info
    rw [normalize_append h1 h2 hcs]
    have hlen : pyLen (s ++ (pyUpperChar c).toString) = 18 := by
      rw [pyLen_append_char, h1]
    rw [parseNorm_18 hlen, parseLen_18 hlen,
      parse18_mismatch hlen (by rw [pySlice17_append _ h1]; exact pyIsDigitStr_of_all h1 h2)
        (by rw [pySlice17_append _ h1, charAt17_append _ h1]; exact hcu),
      pySlice17_append _ h1]
    refine ⟨rfl, rfl, ?_⟩
    rw [data_append, data_append, char_toString_data]
    simp

/-- C7 (witness): the checksum round trip instantiated at a concrete valid
17-digit prefix. -/
theorem C7_witness :
    (parse_id_info ("11010519491231002" ++ (compute_check_code "11010519491231002").toString)
        dirNone ⟨2024, 1, 1⟩).errorMsg = "" ∨
      (parse_id_info ("11010519491231002" ++ (compute_check_code "11010519491231002").toString)
        dirNone ⟨2024, 1, 1⟩).errorMsg = "错误：无效的出生日期" :=
  C7_amended_ok.1 "11010519491231002" dirNone ⟨2024, 1, 1⟩ (by decide) (by decide)

/-- C8 (counterexample): the future birth date 2090-01-01 passes every
validation stage, so "110105209001010017" parses with validity true and a
NEGATIVE age of -66 against the reference date 2024-01-01. -/
theorem C8_counterexample :
    (parse_id_info "110105209001010017" dirNone ⟨2024, 1, 1⟩).validity = true ∧
      (parse_id_info "110105209001010017" dirNone ⟨2024, 1, 1⟩).age < 0 := by
  constructor <;> decide

/-- C8 (amended): every result with validity true carries the age computed
from its birth date by the source formula, and that age is non-negative
whenever the birth date is not later than the reference date (compared as
(year, month, day) triples); for future birth dates the age is negative. -/
theorem C8_amended_ok :
    ∀ (input : String) (dir : RegionDirectory) (ref : Date),
      (parse_id_info input dir ref).validity = true →
      ∃ b : Date, (parse_id_info input dir ref).birthDate = formatDate b ∧
        (parse_id_info input dir ref).age = computeAge ref b ∧
        ((b.year < ref.year ∨ (b.year = ref.year ∧ (b.month < ref.month ∨
            (b.month = ref.month ∧ b.day ≤ ref.day)))) →
          0 ≤ (parse_id_info input dir ref).age) := by
  intro input dir ref h
  obtain ⟨b, hbd, hage⟩ := parse_valid_shape input dir ref h
  exact ⟨b, hbd, hage, fun hle => by rw [hage]; exact computeAge_nonneg ref b hle⟩

/-- C8 (witness): the age characterization instantiated at a concrete valid
parse with a past birth date. -/
theorem C8_witness :
    ∃ b : Date,
      (parse_id_info "110105199003078510" dirBeijing ⟨2024, 1, 1⟩).birthDate = formatDate b ∧
      (parse_id_info "110105199003078510" dirBeijing ⟨2024, 1, 1⟩).age =
        computeAge ⟨2024, 1, 1⟩ b ∧
      ((b.year < 2024 ∨ (b.year = 2024 ∧ (b.month < 1 ∨ (b.month = 1 ∧ b.day ≤ 1)))) →
        0 ≤ (parse_id_info "110105199003078510" dirBeijing ⟨2024, 1, 1⟩).age) :=
  C8_amended_ok "110105199003078510" dirBeijing ⟨2024, 1, 1⟩ (by decide)

/-- C9: for every 6-digit code and directory, the resolver returns a
nonempty list; an absent province key and an empty province name both give
exactly ["未知省份"]; and every result is either ["未知省份"] or headed by
the (nonempty) province entry value, so the defensive ["未知地区"] branch is
never taken. -/
theorem C9_ok :
    ∀ (code : String) (dir : RegionDirectory), pyLen code = 6 →
      code.data.all pyIsDigitChar = true →
      get_region_detail code dir ≠ [] ∧
      ((dir (province_key code) = none ∨ dir (province_key code) = some "") →
        get_region_detail code dir = ["未知省份"]) ∧
      (get_region_detail code dir = ["未知省份"] ∨
        ∃ p, dir (province_key code) = some p ∧ p ≠ "" ∧
          (get_region_detail code dir).head? = some p) := by
  intro code dir _h1 _h2
  refine ⟨?_, ?_, ?_⟩
  · rcases region_shape code dir with ⟨_, h⟩ | ⟨p, _, _, h⟩ <;> rw [h] <;> simp
  · intro hp
    rcases region_shape code dir with ⟨_, h⟩ | ⟨p, hp2, hpne, _⟩
    · exact h
    · rcases hp with h0 | h0
      · rw [hp2] at h0
        exact absurd h0 (by simp)
      · rw [hp2] at h0
        injection h0 with h0
        exact absurd h0 hpne
  · rcases region_shape code dir with ⟨_, h⟩ | ⟨p, hp, hpne, h⟩
    · exact Or.inl h
    · exact Or.inr ⟨p, hp, hpne, by rw [h]; rfl⟩

/-- C9 (witness): the resolver invariants instantiated at a concrete code
and directory. -/
theorem C9_witness :
    get_region_detail "110105" dirBeijing ≠ [] ∧
      ((dirBeijing (province_key "110105") = none ∨
          dirBeijing (province_key "110105") = some "") →
        get_region_detail "110105" dirBeijing = ["未知省份"]) ∧
      (get_region_detail "110105" dirBeijing = ["未知省份"] ∨
        ∃ p, dirBeijing (province_key "110105") = some p ∧ p ≠ "" ∧
          (get_region_detail "110105" dirBeijing).head? = some p) :=
  C9_ok "110105" dirBeijing (by decide) (by decide)

/-- C10: an input that trims and uppercases to a 15-character or
17-character all-digit string never produces the checksum-mismatch error:
on those paths the verified check character is the one just computed from the
same 17 digits, so the mismatch branch is reachable only for inputs supplied
with 18 characters. -/
theorem C10_ok :
    ∀ (input : String) (dir : RegionDirectory) (ref : Date),
      (pyLen (pyUpper (pyStrip input)) = 15 ∨ pyLen (pyUpper (pyStrip input)) = 17) →
      pyIsDigitStr (pyUpper (pyStrip input)) = true →
      ∀ e : String, (parse_id_info input dir ref).errorMsg ≠
        "错误：校验码不匹配（应为" ++ e ++ "）" := by
  intro input dir ref hlen hdig e
  unfold parse_id_info
  rcases hlen with h15 | h17
  · rw [parseNorm_15 h15 hdig]
    rcases validated_errMsg _ dir ref with h | h <;> rw [h]
    · exact mismatch_msg_ne e (by decide)
    · exact mismatch_msg_ne e (by decide)
  · rw [parseNorm_17 h17 hdig]
    rcases validated_errMsg _ dir ref with h | h <;> rw [h]
    · exact mismatch_msg_ne e (by decide)
    · exact mismatch_msg_ne e (by decide)

/-- C10 (witness): the no-mismatch property instantiated at a concrete
15-digit input. -/
theorem C10_witness :
    (parse_id_info "110105900307851" dirNone ⟨2024, 1, 1⟩).errorMsg ≠
      "错误：校验码不匹配（应为" ++ "X" ++ "）" :=
  C10_ok "110105900307851" dirNone ⟨2024, 1, 1⟩ (by decide) (by decide) "X"


end Sfz
